import Mathlib

/-!
Shallow embedding of the tokio TCP echo server with graceful shutdown
(`src/code/tcp_server_graceful_shutdown/src/main.rs`).

The async control flow is modelled by making the environment's choices
explicit: each `tokio::select!` iteration is driven by an event (which arm
won, and with what outcome), and the handler / server loop are pure
functions from the event trace to the actions performed and the returned
`io::Result`.
-/

namespace EchoServer

/-- Mirror of `std::io::ErrorKind` restricted to the kinds this program
constructs (`TimedOut` at line 110, `ConnectionReset` at line 114); `other`
stands for any kind an environment-produced error may carry. -/
inductive IOErrorKind where
  | timedOut
  | connectionReset
  | other (name : String)
deriving DecidableEq

/-- Mirror of `std::io::Error` as built by `io::Error::new(kind, msg)`:
a kind plus the display message. -/
structure IOError where
  kind : IOErrorKind
  msg : String
deriving DecidableEq

/-- Outcome of `broadcast::Receiver::recv()`: `Ok(())`, or
`Err(RecvError::Lagged(skipped))`, or `Err(RecvError::Closed)`. -/
inductive RecvOutcome where
  | ok
  | lagged (skipped : Nat)
  | closed
deriving DecidableEq

/-- The goodbye payload `b"server shutting down\n"` written at line 99,
as its byte values. -/
def goodbyeBytes : List Nat := "server shutting down\n".data.map Char.toNat

/-- Result of one `write_all` call as the environment resolves it:
it completed successfully, it completed with an I/O error, or (only under
the `timeout` wrapper) the 2-second deadline elapsed and the write future
was dropped mid-flight. -/
inductive WriteOutcome where
  | ok
  | failed (e : IOError)
  | interrupted
deriving DecidableEq

/-- One `write_all` call issued by the handler: the bytes passed to it and
how the environment resolved it. -/
structure WriteAttempt where
  requested : List Nat
  outcome : WriteOutcome
deriving DecidableEq

/-- Environment resolution of `timeout(Duration::from_secs(2), write_all(..))`
(line 109): either the inner write finished within the budget (with its
`io::Result`, `none` = `Ok(())`) or the deadline elapsed. -/
inductive EchoOutcome where
  | completed (inner : Option IOError)
  | elapsed
deriving DecidableEq

/-- Which arm of the handler's `select!` (lines 95-118) fired, with the
environment's data: the shutdown receiver resolved (carrying the result the
goodbye `write_all` would have if attempted), or `socket.read` returned
`Ok(n)` with the bytes read (`[]` models `Ok(0)`), or `socket.read` failed
with an error whose display is `msg`. -/
inductive HandlerEvent where
  | shutdownRecv (r : RecvOutcome) (goodbyeResult : Option IOError)
  | readOk (data : List Nat) (echo : EchoOutcome)
  | readErr (msg : String)
deriving DecidableEq

/-- The handler's read buffer `[0_u8; 1024]` (line 92). -/
def startBuf : List Nat := List.replicate 1024 0

/-- `socket.read(&mut buf)` places the bytes read at the front of the
buffer, leaving the rest untouched; the echo then sends `&buf[..n]`. -/
def writeInto (buf data : List Nat) : List Nat :=
  data ++ buf.drop data.length

/-- `handle_connection` (lines 88-120) as a function of the select-event
trace: returns the list of `write_all` calls it issued, and `some r` when
it returned with `io::Result` `r` (`none`: the trace ran out while the
loop was still running). Branch by branch:
* shutdown arm, `Ok(())`: `write_all(b"server shutting down\n").await?`
  then `return Ok(())` — the `?` propagates a goodbye-write failure;
* shutdown arm, `Lagged`/`Closed`: empty match arm, then `return Ok(())`;
* `read` returned `Ok(0)`: `return Ok(())`;
* `read` returned `Ok(n)`, n > 0: `timeout(2s, write_all(&buf[..n]))`;
  an `Err(Elapsed)` of the outer result returns a `TimedOut` error, any
  `Ok(_)` of the outer result (the inner `io::Result` included) falls
  through and the loop continues;
* `read` failed: return a `ConnectionReset` error. -/
def handleConnection (buf : List Nat) :
    List HandlerEvent → List WriteAttempt × Option (Except IOError Unit)
  | [] => ([], none)
  | .shutdownRecv r gres :: _ =>
    match r with
    | .ok =>
      match gres with
      | none => ([⟨goodbyeBytes, .ok⟩], some (.ok ()))
      | some e => ([⟨goodbyeBytes, .failed e⟩], some (.error e))
    | .lagged _ => ([], some (.ok ()))
    | .closed => ([], some (.ok ()))
  | .readOk [] _ :: _ => ([], some (.ok ()))
  | .readOk (d :: ds) echo :: rest =>
    let buf2 := writeInto buf (d :: ds)
    let payload := buf2.take (d :: ds).length
    match echo with
    | .elapsed =>
      ([⟨payload, .interrupted⟩],
       some (.error ⟨.timedOut, "write timeout: deadline has elapsed"⟩))
    | .completed inner =>
      let k := handleConnection buf2 rest
      (⟨payload, match inner with | none => .ok | some e => .failed e⟩ :: k.1, k.2)
  | .readErr m :: _ =>
    ([], some (.error ⟨.connectionReset, "read failed: " ++ m⟩))

/-- Which arm of the server's `select!` (lines 41-74) fired: the shutdown
receiver resolved, `listener.accept()` returned a connection (identified by
a tag), or `listener.accept()` failed. -/
inductive ServerEvent where
  | shutdownRecv (r : RecvOutcome)
  | accepted (connId : Nat)
  | acceptFailed (msg : String)
deriving DecidableEq

/-- The accept loop of `run_server` (lines 40-75) over the event trace,
accumulating the spawned connection tasks. All three `recv` outcomes
(`Ok`, `Lagged`, `Closed`) hit a `break`; an accepted connection is spawned
and registered in the `JoinSet`; an accept error is logged and the loop
continues. Returns `some` of the registered tasks when the loop breaks,
`none` if the trace ran out with the loop still accepting. -/
def acceptLoop : List ServerEvent → List Nat → Option (List Nat)
  | [], _ => none
  | .shutdownRecv r :: _, conns =>
    match r with
    | .ok => some conns
    | .lagged _ => some conns
    | .closed => some conns
  | .accepted c :: rest, conns => acceptLoop rest (c :: conns)
  | .acceptFailed _ :: rest, conns => acceptLoop rest conns

/-- How one spawned task terminated, as seen by `join_next`: it ran to
completion, or it panicked / was cancelled (a `JoinError` with display
`msg`). -/
inductive JoinOutcome where
  | finished
  | panicked (msg : String)
deriving DecidableEq

/-- `true` exactly on join outcomes that are `JoinError`s. -/
def isPanic : JoinOutcome → Bool
  | .finished => false
  | .panicked _ => true

/-- What the drain loop left behind: the join-error log lines, how many
tasks were joined, and which registered tasks remain unjoined. -/
structure DrainResult where
  joinErrorLogs : List String
  joinedCount : Nat
  remaining : List JoinOutcome
deriving DecidableEq

/-- The drain phase of `run_server` (lines 78-82):
`while let Some(joined) = connections.join_next().await` — each iteration
removes one task from the set; a `JoinError` is logged and the loop
continues; the loop stops only when the set is empty. -/
def drainLoop : List JoinOutcome → DrainResult
  | [] => ⟨[], 0, []⟩
  | j :: rest =>
    let d := drainLoop rest
    match j with
    | .finished => ⟨d.joinErrorLogs, d.joinedCount + 1, d.remaining⟩
    | .panicked m =>
      ⟨("connection task join error: " ++ m) :: d.joinErrorLogs,
       d.joinedCount + 1, d.remaining⟩

/-- `run_server` (lines 34-86): run the accept loop; if it breaks, drain
the `JoinSet` and return `Ok(())` (line 85 — the function body has no other
return). `joins` is the environment's join outcome for each registered
task. `none`: the accept loop was still running when the trace ran out. -/
def runServer (events : List ServerEvent) (joins : List JoinOutcome) :
    Option (List Nat × DrainResult × Except IOError Unit) :=
  match acceptLoop events [] with
  | none => none
  | some conns => some (conns, drainLoop joins, .ok ())

/-- Body of the task spawned per connection (lines 63-67): await the
handler, log its error if any, and return `()` — so, absent a panic, the
task always joins as a normal completion whatever the handler returned. -/
def connTaskBody (peer : String) (handlerResult : Except IOError Unit) :
    List String × JoinOutcome :=
  match handlerResult with
  | .error e => (["connection " ++ peer ++ " error: " ++ e.msg], .finished)
  | .ok _ => ([], .finished)

/-- `main` (lines 8-32) as a function of the environment's outcomes for
its fallible steps, in program order: `TcpListener::bind(addr).await?`,
`run_client("client-1", ..).await?`, `run_client("client-2", ..).await?`;
then the shutdown send and the `match server_task.await` only print, and
`main` ends in `Ok(())`. -/
def mainResult (bindResult : Except IOError Unit)
    (client1Result client2Result : Except IOError Unit)
    (_serverTaskOutcome : Except String (Except IOError Unit)) :
    Except IOError Unit :=
  match bindResult with
  | .error e => .error e
  | .ok _ =>
    match client1Result with
    | .error e => .error e
    | .ok _ =>
      match client2Result with
      | .error e => .error e
      | .ok _ => .ok ()

/-- The spec's implicit `ServerState`: `Accepting` (tagged with the
registered tasks) → `Draining` → `Stopped`. -/
inductive ServerPhase where
  | accepting (conns : List Nat)
  | draining (conns : List Nat)
  | stopped
deriving DecidableEq

/-- Whether the phase still runs the accept loop. -/
def ServerPhase.isAccepting : ServerPhase → Bool
  | .accepting _ => true
  | _ => false

/-- Labels for the server's transitions. -/
inductive StepLabel where
  | acceptConn (c : Nat)
  | acceptError (msg : String)
  | observeShutdown (r : RecvOutcome)
  | joinTask
  | drainComplete
deriving DecidableEq

/-- Step relation of `run_server` read off its control flow: while
accepting, an accepted connection registers a task, an accept error leaves
the state unchanged, and any `recv` outcome moves to draining; while
draining, `join_next` removes one task, and an empty set ends the loop and
reaches the final `Ok(())`. No rule leaves `stopped`. -/
inductive ServerStep : ServerPhase → StepLabel → ServerPhase → Prop where
  | acceptConn (c : Nat) (cs : List Nat) :
      ServerStep (.accepting cs) (.acceptConn c) (.accepting (c :: cs))
  | acceptError (m : String) (cs : List Nat) :
      ServerStep (.accepting cs) (.acceptError m) (.accepting cs)
  | observeShutdown (r : RecvOutcome) (cs : List Nat) :
      ServerStep (.accepting cs) (.observeShutdown r) (.draining cs)
  | joinTask (c : Nat) (cs : List Nat) :
      ServerStep (.draining (c :: cs)) .joinTask (.draining cs)
  | drainComplete :
      ServerStep (.draining []) .drainComplete .stopped

/-- The unlabeled step relation. -/
def serverStepAny (s s' : ServerPhase) : Prop := ∃ l, ServerStep s l s'

/-! Helper lemmas. -/

theorem step_preserves_nonAccepting {s s' : ServerPhase} {l : StepLabel}
    (hstep : ServerStep s l s') (h : s.isAccepting = false) :
    s'.isAccepting = false := by
  cases hstep <;> simp_all [ServerPhase.isAccepting]

theorem reach_nonAccepting {s s' : ServerPhase}
    (h : s.isAccepting = false)
    (hr : Relation.ReflTransGen serverStepAny s s') :
    s'.isAccepting = false := by
  induction hr with
  | refl => exact h
  | tail _ hbc ih =>
    obtain ⟨l, hl⟩ := hbc
    exact step_preserves_nonAccepting hl ih

theorem acceptStep_source_accepting {s t : ServerPhase} {c : Nat}
    (h : ServerStep s (.acceptConn c) t) : s.isAccepting = true := by
  cases h; rfl

theorem acceptErrStep_source_accepting {s t : ServerPhase} {m : String}
    (h : ServerStep s (.acceptError m) t) : s.isAccepting = true := by
  cases h; rfl

/-! Claims. -/

/-- Claim C1, counterexample: with the shutdown event observed and the
goodbye `write_all` failing (here with a broken-pipe error), the handler
does attempt the goodbye write but returns that error, not success — the
`?` at line 99 propagates the goodbye-write failure. -/
theorem c1_counterexample :
    (handleConnection startBuf
        [HandlerEvent.shutdownRecv .ok (some ⟨.other "pipe", "broken pipe"⟩)]).2
      = some (.error ⟨.other "pipe", "broken pipe"⟩) ∧
    (handleConnection startBuf
        [HandlerEvent.shutdownRecv .ok (some ⟨.other "pipe", "broken pipe"⟩)]).2
      ≠ some (.ok ()) := by
  constructor
  · rfl
  · intro h
    rw [show (handleConnection startBuf
        [HandlerEvent.shutdownRecv .ok (some ⟨.other "pipe", "broken pipe"⟩)]).2
      = some (.error ⟨.other "pipe", "broken pipe"⟩) from rfl] at h
    exact Except.noConfusion (Option.some.inj h)

/-- Claim C1 (amended): when the shutdown event is observed, the handler
attempts to write the literal goodbye text "server shutting down\n"; if
that write succeeds the handler returns success, and if it fails the
handler exits with that write error (in both cases the handler stops and
the connection closes — no retry and no further echo). -/
theorem c1_goodbye_then_stop (buf : List Nat) (rest : List HandlerEvent)
    (gres : Option IOError) :
    handleConnection buf (HandlerEvent.shutdownRecv .ok gres :: rest)
      = ([⟨goodbyeBytes, match gres with | none => .ok | some e => .failed e⟩],
         some (match gres with | none => .ok () | some e => .error e)) := by
  cases gres <;> rfl

/-- Claim C2: a read yielding the non-empty bytes `d :: ds` is echoed as
exactly those bytes — the `write_all` issued before the next loop
iteration requests precisely `&buf[..n]`, which equals the bytes read —
and the rest of the run is the loop on the updated buffer. -/
theorem c2_echo_exact_bytes (buf : List Nat) (d : Nat) (ds : List Nat)
    (rest : List HandlerEvent) :
    handleConnection buf (HandlerEvent.readOk (d :: ds) (.completed none) :: rest)
      = (⟨d :: ds, .ok⟩ :: (handleConnection (writeInto buf (d :: ds)) rest).1,
         (handleConnection (writeInto buf (d :: ds)) rest).2) := by
  simp only [handleConnection, writeInto, List.take_left]

/-- Claim C3: every outcome of the server's shutdown `recv` — the event,
`Lagged(n)` for any `n`, or `Closed` — exits the accept loop at once (the
registered tasks are kept, the remaining trace is never consulted), and
the server then drains and returns `Ok(())`, treating none of the three
as a fatal error. -/
theorem c3_all_recv_outcomes_stop_accepting (r : RecvOutcome)
    (rest : List ServerEvent) (conns : List Nat) (joins : List JoinOutcome) :
    acceptLoop (ServerEvent.shutdownRecv r :: rest) conns = some conns ∧
    runServer (ServerEvent.shutdownRecv r :: rest) joins
      = some ([], drainLoop joins, .ok ()) := by
  cases r <;> exact ⟨rfl, rfl⟩

/-- Claim C4: the drain phase leaves the connection set empty, joins every
registered task — those that panicked included, so a join error neither
aborts the drain nor skips later tasks — and logs one join error per
crashed task. -/
theorem c4_drain_joins_all_tasks (s : List JoinOutcome) :
    (drainLoop s).remaining = [] ∧
    (drainLoop s).joinedCount = s.length ∧
    (drainLoop s).joinErrorLogs.length = (s.filter isPanic).length := by
  induction s with
  | nil => exact ⟨rfl, rfl, rfl⟩
  | cons j rest ih =>
    obtain ⟨h1, h2, h3⟩ := ih
    cases j <;> simp [drainLoop, isPanic, h1, h2, h3, List.filter]

/-- Claim C5: an echo write whose 2-second budget elapses makes the
handler return an error of kind `TimedOut` — a kind distinct from the
`ConnectionReset` used for read failures — and the handler exits there,
with no further iterations. -/
theorem c5_write_timeout_kind (buf : List Nat) (d : Nat) (ds : List Nat)
    (rest : List HandlerEvent) :
    handleConnection buf (HandlerEvent.readOk (d :: ds) .elapsed :: rest)
      = ([⟨d :: ds, .interrupted⟩],
         some (.error ⟨.timedOut, "write timeout: deadline has elapsed"⟩)) ∧
    (IOErrorKind.timedOut ≠ IOErrorKind.connectionReset) := by
  refine ⟨?_, by intro h; cases h⟩
  simp only [handleConnection, writeInto, List.take_left]

/-- Claim C6, counterexample: with the listener created (`bind` succeeded),
`main` still propagates a hard failure that is not a listener-creation
failure — the `?` on `run_client("client-1", ..)` at line 19 forwards the
test client's connect error. -/
theorem c6_counterexample :
    mainResult (.ok ()) (.error ⟨.other "connect", "connection refused"⟩)
        (.ok ()) (.ok (.ok ()))
      = .error ⟨.other "connect", "connection refused"⟩ ∧
    mainResult (.ok ()) (.error ⟨.other "connect", "connection refused"⟩)
        (.ok ()) (.ok (.ok ()))
      ≠ .ok () := by
  exact ⟨rfl, by intro h; exact Except.noConfusion h⟩

/-- Claim C6 (amended): `run_server`'s result is success in every run in
which its accept loop exits — accept errors, per-connection handler
failures, and task join errors never make it return an error; `main`
propagates a listener-creation failure to its caller; and the server
task's own outcome is never propagated (for fixed bind and client
outcomes, `main`'s result is the same whatever the server task reported).
Beyond listener creation, the only other hard failures `main` propagates
are those of its two built-in test-client calls. -/
theorem c6_server_always_ok (events : List ServerEvent)
    (joins : List JoinOutcome)
    (out : List Nat × DrainResult × Except IOError Unit)
    (h : runServer events joins = some out) :
    out.2.2 = .ok () ∧
    (∀ e c1 c2 so, mainResult (.error e) c1 c2 so = .error e) ∧
    (∀ b c1 c2 so so', mainResult b c1 c2 so = mainResult b c1 c2 so') := by
  refine ⟨?_, fun e c1 c2 so => rfl, fun b c1 c2 so so' => rfl⟩
  unfold runServer at h
  cases hacc : acceptLoop events [] with
  | none => rw [hacc] at h; exact Option.noConfusion h
  | some conns =>
    rw [hacc] at h
    cases Option.some.inj h
    rfl

/-- Claim C6 witness. -/
theorem c6_server_always_ok_witness :
    (([], drainLoop [], Except.ok ()) :
        List Nat × DrainResult × Except IOError Unit).2.2 = .ok () :=
  (c6_server_always_ok [ServerEvent.shutdownRecv .ok] []
    ([], drainLoop [], .ok ()) rfl).1

/-- Claim C7: a failed read makes the handler exit at once with an error
of kind `ConnectionReset`, and the failure is contained: the spawned task
body only logs it and returns `()`, so (absent a panic) the task joins as
a normal completion, and `run_server`'s own result is `Ok(())` in every
run whose accept loop exits, whatever any handler did. -/
theorem c7_read_failure_reset_contained (buf : List Nat) (m : String)
    (rest : List HandlerEvent) :
    handleConnection buf (HandlerEvent.readErr m :: rest)
      = ([], some (.error ⟨.connectionReset, "read failed: " ++ m⟩)) ∧
    (∀ peer e, (connTaskBody peer (.error e)).2 = .finished) ∧
    (∀ events joins out, runServer events joins = some out →
      out.2.2 = Except.ok ()) := by
  refine ⟨rfl, fun peer e => rfl, fun events joins out h => ?_⟩
  unfold runServer at h
  cases hacc : acceptLoop events [] with
  | none => rw [hacc] at h; exact Option.noConfusion h
  | some conns =>
    rw [hacc] at h
    cases Option.some.inj h
    rfl

/-- Claim C7 witness. -/
theorem c7_read_failure_reset_contained_witness :
    handleConnection startBuf [HandlerEvent.readErr "peer reset"]
      = ([], some (.error ⟨.connectionReset, "read failed: peer reset"⟩)) ∧
    (([], drainLoop [], Except.ok ()) :
        List Nat × DrainResult × Except IOError Unit).2.2 = .ok () :=
  ⟨(c7_read_failure_reset_contained startBuf "peer reset" []).1,
   (c7_read_failure_reset_contained startBuf "peer reset" []).2.2
     [ServerEvent.shutdownRecv .closed] [] ([], drainLoop [], .ok ()) rfl⟩

/-- Claim C8: once the server has taken the transition that observes the
shutdown receiver (any classification), no accept step — neither a
successful accept nor an accept-error step — is enabled at any state
reachable from there: accept transitions exist only out of `accepting`
states, and `draining`/`stopped` states never step back to one. -/
theorem c8_no_accept_after_shutdown (s₀ s₁ s₂ t : ServerPhase)
    (r : RecvOutcome) (c : Nat) (m : String)
    (hobs : ServerStep s₀ (.observeShutdown r) s₁)
    (hreach : Relation.ReflTransGen serverStepAny s₁ s₂) :
    ¬ ServerStep s₂ (.acceptConn c) t ∧ ¬ ServerStep s₂ (.acceptError m) t := by
  have h₁ : s₁.isAccepting = false := by cases hobs; rfl
  have h₂ := reach_nonAccepting h₁ hreach
  constructor
  · intro hacc
    rw [acceptStep_source_accepting hacc] at h₂
    exact Bool.noConfusion h₂
  · intro hacc
    rw [acceptErrStep_source_accepting hacc] at h₂
    exact Bool.noConfusion h₂

/-- Claim C8 witness: after observing shutdown from `accepting []` and
draining to `stopped`, no accept step out of `stopped` exists. -/
theorem c8_no_accept_after_shutdown_witness :
    ¬ ServerStep .stopped (.acceptConn 0) (.accepting [0]) ∧
    ¬ ServerStep .stopped (.acceptError "busy") (.accepting [0]) :=
  c8_no_accept_after_shutdown (.accepting []) (.draining []) .stopped
    (.accepting [0]) .ok 0 "busy"
    (ServerStep.observeShutdown .ok [])
    (Relation.ReflTransGen.single ⟨StepLabel.drainComplete, ServerStep.drainComplete⟩)

/-- Claim C9: a read yielding zero bytes (peer closed its write side)
makes the handler return success immediately: no write is issued, no
error is reported, and the remaining trace is never consulted. -/
theorem c9_zero_read_returns_success (buf : List Nat) (echo : EchoOutcome)
    (rest : List HandlerEvent) :
    handleConnection buf (HandlerEvent.readOk [] echo :: rest)
      = ([], some (.ok ())) := rfl

/-- Claim C10: when the echo's `write_all` finishes within the 2-second
budget but with an I/O error, the handler records the failed attempt and
silently continues its loop on the remaining trace — the inner error is
discarded by the `if let Err` at line 109, which only matches the elapsed
deadline. -/
theorem c10_inner_write_error_discarded (buf : List Nat) (d : Nat)
    (ds : List Nat) (e : IOError) (rest : List HandlerEvent) :
    handleConnection buf (HandlerEvent.readOk (d :: ds) (.completed (some e)) :: rest)
      = (⟨d :: ds, .failed e⟩ :: (handleConnection (writeInto buf (d :: ds)) rest).1,
         (handleConnection (writeInto buf (d :: ds)) rest).2) := by
  simp only [handleConnection, writeInto, List.take_left]

end EchoServer
